import Mathlib

/-!
Shallow embedding of the Magic-Pass-Resort-Picker backend (Python) in Lean 4.

Conventions used throughout this development:
* Python `float` values are modelled as exact rationals (`ℚ`); Python `int` as `ℤ`.
* Python `Optional[T]` is `Option T`; Python truthiness of an optional number
  (`if x:` is false for both `None` and `0`) is modelled by an explicit match
  together with a zero test, exactly where the source uses a bare truthiness test.
* Python `round(x, 1)` (round-half-to-even) is `round1`, built on `rhe`,
  a round-half-to-even integer rounding on `ℚ`.
* Code that performs I/O (HTTP fetches, the LLM call) is modelled by passing the
  outcome of the external call as an explicit argument: `FetchOutcome` for the
  weather HTTP fetch (which can raise), `Except String String` for the LLM call.
* Python dicts keyed by resort id are modelled as association lists built with
  `dictInsert` (update-in-place semantics, preserving first-insertion order),
  and read through the functional arguments `weather_data`/`snow_data`/...
  that stand for `dict.get` (returning `none` when the key is missing).
-/

/-- Round-half-to-even on `ℚ`, the rounding used by Python's `round` and
`format`. Returns the nearest integer, ties going to the even integer. -/
def rhe (q : ℚ) : ℤ :=
  if q - ⌊q⌋ < 1/2 then ⌊q⌋
  else if 1/2 < q - ⌊q⌋ then ⌊q⌋ + 1
  else if ⌊q⌋ % 2 = 0 then ⌊q⌋ else ⌊q⌋ + 1

/-- Python's `round(x, 1)`: round to one decimal place, half to even. -/
def round1 (q : ℚ) : ℚ := (rhe (10 * q) : ℚ) / 10

/-- Python's `"%.0f"`-style formatting (`f"{x:.0f}"`) of a rational. -/
def pyFmt0 (q : ℚ) : String := toString (rhe q)

/-- Python's `"%.1f"`-style formatting (`f"{x:.1f}"`) of a rational. -/
def pyFmt1 (q : ℚ) : String :=
  let n := rhe (10 * q)
  let sign := if n < 0 then "-" else ""
  let m := n.natAbs
  sign ++ toString (m / 10) ++ "." ++ toString (m % 10)

/-- The clamp `max(0.0, min(10.0, score))` applied by the scorers. -/
def clamp10 (q : ℚ) : ℚ := max 0 (min 10 q)

/-! Data model, from `backend/models/`.  `datetime`/`date` values are carried
as opaque strings (no modelled code inspects them). -/

/-- Model of `models.resort.Coordinates`. -/
structure Coordinates where
  latitude : ℚ
  longitude : ℚ
deriving DecidableEq, Repr

/-- Model of `models.resort.AccessInfo`. -/
structure AccessInfo where
  nearest_station : String
  postbus_required : Bool
  postbus_duration_minutes : Option ℤ
deriving DecidableEq, Repr

/-- Model of `models.resort.Resort`. -/
structure Resort where
  id : String
  name : String
  region : String
  canton : Option String
  country : String
  coordinates : Coordinates
  elevation_base : ℤ
  elevation_top : ℤ
  access : AccessInfo
  website : String
  magic_pass_valid : Bool
  snow_forecast_slug : Option String
  skiable_terrain_km : Option ℚ
deriving DecidableEq, Repr

/-- Model of `models.weather.WeatherForecast`. -/
structure WeatherForecast where
  date : String
  temperature_min : ℚ
  temperature_max : ℚ
  precipitation_mm : ℚ
  snowfall_cm : Option ℚ
  wind_speed : ℚ
  wind_direction : String
  cloud_cover : ℤ
  visibility : String
  conditions : String
  icon : String
deriving DecidableEq, Repr

/-- Model of `models.snow.SnowConditions`. -/
structure SnowConditions where
  resort_id : String
  date_updated : String
  snow_base : Option ℤ
  snow_summit : Option ℤ
  new_snow_24h : Option ℤ
  new_snow_7d : Option ℤ
  snow_quality : String
  lifts_open : Option ℤ
  runs_open : Option ℤ
deriving DecidableEq, Repr

/-- Model of `models.transport.JourneySegment`. -/
structure JourneySegment where
  type : String
  from_station : String
  to_station : String
  departure : String
  arrival : String
  line : String
deriving DecidableEq, Repr

/-- Model of `models.transport.Journey`. -/
structure Journey where
  departure_time : String
  arrival_time : String
  duration_minutes : ℤ
  changes : ℤ
  segments : List JourneySegment
deriving DecidableEq, Repr

/-- Model of `models.recommendation.Recommendation`. -/
structure Recommendation where
  resort : Resort
  score : ℚ
  weather_score : ℚ
  snow_score : ℚ
  transport_score : ℚ
  size_score : ℚ
  weather_forecast : Option WeatherForecast
  snow_conditions : Option SnowConditions
  journey : Option Journey
  highlights : List String
  concerns : List String
  reasoning : String
deriving DecidableEq, Repr

/-- Model of `models.recommendation.RecommendationsResponse`
(the wall-clock `generated_at` timestamp is omitted). -/
structure RecommendationsResponse where
  recommendations : List Recommendation
  ai_summary : String
  target_weekend : String
deriving DecidableEq, Repr

/-! Scoring engine, from `backend/core/scoring.py` (`ScoringEngine`).
Each scorer's sequence of `score +=`/`score -=` statements and list appends is
embedded as a per-block adjustment triple `(delta, highlights, concerns)`;
the blocks are summed/concatenated in source order, which is equivalent to the
source's sequential accumulation starting from the base score. -/

def WEATHER_WEIGHT : ℚ := 0.20
def SNOW_WEIGHT : ℚ := 0.45
def TRANSPORT_WEIGHT : ℚ := 0.10
def SIZE_WEIGHT : ℚ := 0.25
def SNOW_UNAVAILABLE_PENALTY : ℚ := 2.5

/-- Python's `str.lower()` (ASCII case folding suffices for the quality labels
the source compares against). -/
def str_lower (s : String) : String := String.mk (s.data.map Char.toLower)

/-- Python truthiness of an `Optional[float]`: `None` and `0.0` are falsy. -/
def snowfallTruthy (snowfall_cm : Option ℚ) : Bool :=
  match snowfall_cm with
  | none => false
  | some sf => sf != 0

/-- Temperature block of `ScoringEngine.score_weather` (lines 40-53). -/
def weatherTempAdj (avg_temp : ℚ) : ℚ × List String × List String :=
  if -12 ≤ avg_temp ∧ avg_temp ≤ -3 then
    (2, ["Perfect ski temperature (" ++ pyFmt0 avg_temp ++ "C)"], [])
  else if (-15 ≤ avg_temp ∧ avg_temp < -3) ∨ (-3 < avg_temp ∧ avg_temp ≤ 0) then
    (1, ["Good temperature (" ++ pyFmt0 avg_temp ++ "C)"], [])
  else if 2 < avg_temp then
    (-2, [], ["Warm temperatures (" ++ pyFmt0 avg_temp ++ "C) - possible slushy snow"])
  else if avg_temp < -15 then
    (-1, [], ["Very cold (" ++ pyFmt0 avg_temp ++ "C)"])
  else (0, [], [])

/-- Fresh snowfall block of `score_weather` (lines 55-65); the guard
`if forecast.snowfall_cm:` is Python truthiness (false for `None` and `0`). -/
def weatherSnowfallAdj (snowfall_cm : Option ℚ) : ℚ × List String × List String :=
  match snowfall_cm with
  | none => (0, [], [])
  | some sf =>
    if sf = 0 then (0, [], [])
    else if 20 ≤ sf then (3.5, ["Heavy snowfall expected (" ++ pyFmt0 sf ++ "cm)"], [])
    else if 10 ≤ sf then (2.5, ["Good snowfall expected (" ++ pyFmt0 sf ++ "cm)"], [])
    else if 5 ≤ sf then (1, ["Some fresh snow expected (" ++ pyFmt0 sf ++ "cm)"], [])
    else (0, [], [])

/-- Cloud cover block of `score_weather` (lines 67-81); the inner guard
`forecast.snowfall_cm and forecast.snowfall_cm >= 5` requires a truthy
(non-`None`, non-zero) snowfall that is at least 5. -/
def weatherCloudAdj (cloud_cover : ℤ) (snowfall_cm : Option ℚ) :
    ℚ × List String × List String :=
  if cloud_cover < 30 then
    if snowfallTruthy snowfall_cm ∧ 5 ≤ snowfall_cm.getD 0 then
      (1.5, ["Sunny conditions expected"], [])
    else
      (0.5, ["Sunny conditions expected"], ["Dry conditions - no fresh snow forecast"])
  else if cloud_cover < 50 then (0.5, ["Partly cloudy"], [])
  else if 80 < cloud_cover then (-1, [], ["Overcast conditions"])
  else (0, [], [])

/-- Wind block of `score_weather` (lines 83-91). -/
def weatherWindAdj (wind_speed : ℚ) : ℚ × List String × List String :=
  if wind_speed < 20 then (0.5, [], [])
  else if 50 < wind_speed then
    (-2, [], ["Strong winds (" ++ pyFmt0 wind_speed ++ "km/h)"])
  else if 35 < wind_speed then
    (-1, [], ["Moderate winds (" ++ pyFmt0 wind_speed ++ "km/h)"])
  else (0, [], [])

/-- Rain block of `score_weather` (lines 93-97); `not forecast.snowfall_cm`
is Python truthiness (true for `None` and for `0`). -/
def weatherRainAdj (precipitation_mm : ℚ) (snowfall_cm : Option ℚ) (avg_temp : ℚ) :
    ℚ × List String × List String :=
  if 0 < precipitation_mm ∧ ¬ snowfallTruthy snowfall_cm then
    if 0 < avg_temp then (-3, [], ["Rain expected"]) else (0, [], [])
  else (0, [], [])

/-- Model of `ScoringEngine.score_weather`. -/
def score_weather (forecast : Option WeatherForecast) : ℚ × List String × List String :=
  match forecast with
  | none => (5, [], ["Weather data unavailable"])
  | some forecast =>
    let avg_temp := (forecast.temperature_min + forecast.temperature_max) / 2
    let a1 := weatherTempAdj avg_temp
    let a2 := weatherSnowfallAdj forecast.snowfall_cm
    let a3 := weatherCloudAdj forecast.cloud_cover forecast.snowfall_cm
    let a4 := weatherWindAdj forecast.wind_speed
    let a5 := weatherRainAdj forecast.precipitation_mm forecast.snowfall_cm avg_temp
    (round1 (clamp10 (5 + a1.1 + a2.1 + a3.1 + a4.1 + a5.1)),
     a1.2.1 ++ a2.2.1 ++ a3.2.1 ++ a4.2.1 ++ a5.2.1,
     a1.2.2 ++ a2.2.2 ++ a3.2.2 ++ a4.2.2 ++ a5.2.2)

/-- Base-depth block of `ScoringEngine.score_snow` (lines 119-131); the guard
`if conditions.snow_base:` is Python truthiness (false for `None` and `0`). -/
def snowBaseAdj (snow_base : Option ℤ) : ℚ × List String × List String :=
  match snow_base with
  | none => (0, [], [])
  | some b =>
    if b = 0 then (0, [], [])
    else if 150 ≤ b then (2.5, ["Excellent base depth (" ++ toString b ++ "cm)"], [])
    else if 100 ≤ b then (1.5, ["Good base depth (" ++ toString b ++ "cm)"], [])
    else if 60 ≤ b then (0.5, [], [])
    else if b < 40 then (-2, [], ["Low snow base (" ++ toString b ++ "cm)"])
    else (0, [], [])

/-- Fresh-snow (24h) block of `score_snow` (lines 133-142). -/
def snowNew24Adj (new_snow_24h : Option ℤ) : ℚ × List String × List String :=
  match new_snow_24h with
  | none => (0, [], [])
  | some n =>
    if n = 0 then (0, [], [])
    else if 20 ≤ n then (3, ["Fresh powder! (" ++ toString n ++ "cm in 24h)"], [])
    else if 10 ≤ n then (2, ["Fresh snow (" ++ toString n ++ "cm in 24h)"], [])
    else if 5 ≤ n then (1, [], [])
    else (0, [], [])

/-- Weekly-snow block of `score_snow` (lines 144-150). -/
def snowNew7Adj (new_snow_7d : Option ℤ) : ℚ × List String × List String :=
  match new_snow_7d with
  | none => (0, [], [])
  | some n =>
    if n = 0 then (0, [], [])
    else if 50 ≤ n then (1, ["Great week of snow (" ++ toString n ++ "cm)"], [])
    else if 20 ≤ n then (0.5, [], [])
    else (0, [], [])

/-- Quality block of `score_snow` (lines 152-165). -/
def snowQualityAdj (snow_quality : String) : ℚ × List String × List String :=
  let quality := str_lower snow_quality
  if quality = "powder" ∨ quality = "fresh" then (1.5, ["Powder conditions"], [])
  else if quality = "packed" ∨ quality = "groomed" then (0.5, ["Well-groomed slopes"], [])
  else if quality = "icy" ∨ quality = "hard" then (-2, [], ["Icy conditions reported"])
  else if quality = "wet" ∨ quality = "spring" then (-1, [], ["Wet/spring snow"])
  else (0, [], [])

/-- Model of `ScoringEngine.score_snow`. -/
def score_snow (conditions : Option SnowConditions) : ℚ × List String × List String :=
  match conditions with
  | none => (SNOW_UNAVAILABLE_PENALTY, [], ["Snow data unavailable - conditions unknown"])
  | some conditions =>
    let a1 := snowBaseAdj conditions.snow_base
    let a2 := snowNew24Adj conditions.new_snow_24h
    let a3 := snowNew7Adj conditions.new_snow_7d
    let a4 := snowQualityAdj conditions.snow_quality
    (round1 (clamp10 (5 + a1.1 + a2.1 + a3.1 + a4.1)),
     a1.2.1 ++ a2.2.1 ++ a3.2.1 ++ a4.2.1,
     a1.2.2 ++ a2.2.2 ++ a3.2.2 ++ a4.2.2)

/-- Duration-band block of `ScoringEngine.score_transport` (lines 186-205):
`hours = journey.duration_minutes / 60`, then the first matching strict
upper bound sets the base score. -/
def transportDurationBase (duration_minutes : ℤ) : ℚ × List String × List String :=
  let hours : ℚ := (duration_minutes : ℚ) / 60
  if hours < 2 then (10, ["Quick journey (" ++ pyFmt1 hours ++ "h)"], [])
  else if hours < 2.5 then (8.5, ["Good travel time (" ++ pyFmt1 hours ++ "h)"], [])
  else if hours < 3 then (7, ["Reasonable travel time (" ++ pyFmt1 hours ++ "h)"], [])
  else if hours < 3.5 then (5.5, [], [])
  else if hours < 4 then (4, [], ["Long journey (" ++ pyFmt1 hours ++ "h)"])
  else (2, [], ["Very long journey (" ++ pyFmt1 hours ++ "h)"])

/-- Change-count block of `score_transport` (lines 207-217). -/
def transportChangesAdj (changes : ℤ) : ℚ × List String × List String :=
  if changes = 0 then (0.5, ["Direct connection"], [])
  else if changes = 1 then (0, [], [])
  else if changes = 2 then (-0.5, [], [])
  else if 3 ≤ changes then (-1, [], ["Multiple changes (" ++ toString changes ++ ")"])
  else (0, [], [])

/-- Model of `ScoringEngine.score_transport`. -/
def score_transport (journey : Option Journey) : ℚ × List String × List String :=
  match journey with
  | none => (3, [], ["Transport data unavailable"])
  | some journey =>
    let base := transportDurationBase journey.duration_minutes
    let adj := transportChangesAdj journey.changes
    (round1 (clamp10 (base.1 + adj.1)), base.2.1 ++ adj.2.1, base.2.2 ++ adj.2.2)

/-- Size-band step function of `ScoringEngine.score_size` (lines 247-271). -/
def sizeBand (km : ℚ) : ℚ × List String × List String :=
  if 200 ≤ km then (10, ["Massive ski area (" ++ pyFmt0 km ++ "km)"], [])
  else if 150 ≤ km then (9, ["Very large ski area (" ++ pyFmt0 km ++ "km)"], [])
  else if 100 ≤ km then (8, ["Large ski area (" ++ pyFmt0 km ++ "km)"], [])
  else if 70 ≤ km then (7, ["Good-sized ski area (" ++ pyFmt0 km ++ "km)"], [])
  else if 50 ≤ km then (6, [], [])
  else if 30 ≤ km then (5, [], [])
  else if 15 ≤ km then (4, [], ["Small ski area (" ++ pyFmt0 km ++ "km)"])
  else if 5 ≤ km then (3, [], ["Very small ski area (" ++ pyFmt0 km ++ "km)"])
  else (2, [], ["Tiny ski area (" ++ pyFmt0 km ++ "km)"])

/-- Model of `ScoringEngine.score_size` (note: no clamp before the round). -/
def score_size (resort : Option Resort) : ℚ × List String × List String :=
  match resort with
  | none => (5, [], ["Resort size unknown"])
  | some resort =>
    match resort.skiable_terrain_km with
    | none => (5, [], ["Resort size unknown"])
    | some km =>
      let band := sizeBand km
      (round1 band.1, band.2.1, band.2.2)

/-- Model of `ScoringEngine.calculate_total_score`. -/
def calculate_total_score (weather_score snow_score transport_score size_score : ℚ) : ℚ :=
  round1 (weather_score * WEATHER_WEIGHT + snow_score * SNOW_WEIGHT
    + transport_score * TRANSPORT_WEIGHT + size_score * SIZE_WEIGHT)

/-- Result record for `ScoringEngine.score_resort` (the source returns a
7-tuple; named fields are used here in the same order). -/
structure ScoreBreakdown where
  total_score : ℚ
  weather_score : ℚ
  snow_score : ℚ
  transport_score : ℚ
  size_score : ℚ
  highlights : List String
  concerns : List String
deriving DecidableEq, Repr

/-- Model of `ScoringEngine.score_resort`. -/
def score_resort (weather : Option WeatherForecast) (snow : Option SnowConditions)
    (transport : Option Journey) (resort : Option Resort) : ScoreBreakdown :=
  let w := score_weather weather
  let s := score_snow snow
  let t := score_transport transport
  let z := score_size resort
  { total_score := calculate_total_score w.1 s.1 t.1 z.1
    weather_score := w.1
    snow_score := s.1
    transport_score := t.1
    size_score := z.1
    highlights := w.2.1 ++ s.2.1 ++ t.2.1 ++ z.2.1
    concerns := w.2.2 ++ s.2.2 ++ t.2.2 ++ z.2.2 }

/-! Recommendation orchestrator, from `backend/core/recommender.py`
(`RecommenderEngine`).  The async data fetching is modelled by passing the
fetched per-resort data as lookup functions (`dict.get` semantics), and the
LLM call outcome as an `Except` value. -/

/-- Model of `RecommenderEngine._generate_reasoning`. -/
def generate_reasoning (resort : Resort) (total_score weather_score snow_score
    transport_score : ℚ) : String :=
  let overall :=
    if 8 ≤ total_score then resort.name ++ " looks excellent this weekend"
    else if 6 ≤ total_score then resort.name ++ " is a solid choice"
    else if 4 ≤ total_score then resort.name ++ " is an option worth considering"
    else resort.name ++ " may not be ideal this weekend"
  let factors :=
    (if 7 ≤ weather_score then ["great weather"]
     else if weather_score < 4 then ["challenging weather"] else [])
    ++ (if 7 ≤ snow_score then ["excellent snow conditions"]
        else if snow_score < 4 then ["limited snow"] else [])
    ++ (if 7 ≤ transport_score then ["easy access"]
        else if transport_score < 4 then ["long travel time"] else [])
  let parts :=
    if factors.isEmpty then [overall]
    else [overall, "with " ++ String.intercalate ", " factors]
  String.intercalate ". " parts ++ "."

/-- One step of the stable descending sort on `Recommendation.score`: insert
`r` in front of the first element whose score is at most `r.score`, after all
strictly greater ones. -/
def insertByScoreDesc (r : Recommendation) : List Recommendation → List Recommendation
  | [] => [r]
  | x :: xs => if x.score ≤ r.score then r :: x :: xs else x :: insertByScoreDesc r xs

/-- Extensional model of `recommendations.sort(key=lambda r: r.score,
reverse=True)` (Python's sort is stable; a stable sort is extensionally unique,
and this insertion sort is stable for the descending order on `score`). -/
def sortByScoreDesc : List Recommendation → List Recommendation
  | [] => []
  | x :: xs => insertByScoreDesc x (sortByScoreDesc xs)

/-- The `Recommendation(...)` construction of
`RecommenderEngine.generate_recommendations` (lines 104-133): score the resort
and truncate highlights and concerns to the top 5. -/
def buildRecommendation (resort : Resort) (weather : Option WeatherForecast)
    (snow : Option SnowConditions) (transport : Option Journey) : Recommendation :=
  let res := score_resort weather snow transport (some resort)
  { resort := resort
    score := res.total_score
    weather_score := res.weather_score
    snow_score := res.snow_score
    transport_score := res.transport_score
    size_score := res.size_score
    weather_forecast := weather
    snow_conditions := snow
    journey := transport
    highlights := res.highlights.take 5
    concerns := res.concerns.take 5
    reasoning := generate_reasoning resort res.total_score res.weather_score
      res.snow_score res.transport_score }

/-! LLM service, from `backend/services/llm_service.py` (`LLMService`).
The chat-completion call is external I/O; its outcome is passed in as
`llm_result : Except String String` (`Except.error` models a raised
exception, `Except.ok` the returned summary text). -/

/-- Model of `LLMService._generate_fallback_summary`. -/
def generate_fallback_summary (recommendations : List Recommendation) : String :=
  match recommendations with
  | [] => "Unable to generate recommendations at this time."
  | top :: _ =>
    let summary := "Based on current conditions, " ++ top.resort.name
      ++ " looks like the best choice with a score of " ++ pyFmt1 top.score ++ "/10. "
    let summary :=
      match top.weather_forecast with
      | some wf => summary ++ "Weather forecast shows " ++ wf.conditions ++ ". "
      | none => summary
    match top.journey with
    | some j => summary ++ "Travel time from Geneva is approximately "
        ++ toString (Int.fdiv j.duration_minutes 60) ++ "h "
        ++ toString (Int.fmod j.duration_minutes 60) ++ "min."
    | none => summary

/-- Model of `LLMService.generate_recommendation_summary`.  The `try` block
around the chat-completion call catches every exception and substitutes
`_generate_fallback_summary`, so the function itself never propagates a
failure; the result type `Except String String` records what a caller
would observe. -/
def generate_recommendation_summary (recommendations : List Recommendation)
    (llm_result : Except String String) : Except String String :=
  if recommendations.isEmpty then
    Except.ok ("Unfortunately, I couldn\x27t generate recommendations at this time. "
      ++ "Please try again later.")
  else
    match llm_result with
    | Except.ok summary => Except.ok summary
    | Except.error _ => Except.ok (generate_fallback_summary recommendations)

/-- Model of `RecommenderEngine.generate_recommendations`.  The three batch
fetches are modelled by the lookup functions (`dict.get` on the fetched
maps); the final `await` of the summarizer has no surrounding `try`, so an
error outcome of the summarizer would propagate to the caller (hence the
`Except` result). -/
def generate_recommendations (resorts : List Resort)
    (weather_data : String → Option WeatherForecast)
    (snow_data : String → Option SnowConditions)
    (transport_data : String → Option Journey)
    (num_recommendations : ℕ) (llm_result : Except String String)
    (target_weekend : String) : Except String RecommendationsResponse :=
  let recommendations := resorts.map fun resort =>
    buildRecommendation resort (weather_data resort.id) (snow_data resort.id)
      (transport_data resort.id)
  let sorted := sortByScoreDesc recommendations
  let top_recommendations := sorted.take num_recommendations
  match generate_recommendation_summary top_recommendations llm_result with
  | Except.error e => Except.error e
  | Except.ok ai_summary =>
    Except.ok { recommendations := top_recommendations
                ai_summary := ai_summary
                target_weekend := target_weekend }

/-- Model of `RecommenderEngine.get_resort_details`: single-resort variant,
`resort_lookup` is the result of `resort_service.get_resort_by_id`; the
highlight/concern lists are returned in full, without truncation. -/
def get_resort_details (resort_lookup : Option Resort)
    (weather : Option WeatherForecast) (snow : Option SnowConditions)
    (transport : Option Journey) : Option Recommendation :=
  match resort_lookup with
  | none => none
  | some resort =>
    let res := score_resort weather snow transport (some resort)
    some { resort := resort
           score := res.total_score
           weather_score := res.weather_score
           snow_score := res.snow_score
           transport_score := res.transport_score
           size_score := res.size_score
           weather_forecast := weather
           snow_conditions := snow
           journey := transport
           highlights := res.highlights
           concerns := res.concerns
           reasoning := generate_reasoning resort res.total_score res.weather_score
             res.snow_score res.transport_score }

/-! Weather service, from `backend/services/weather_service.py`
(`WeatherService`).  The HTTP request plus response parsing for one resort is
external I/O; its outcome is a `FetchOutcome`: either the fetch attempt raises
an exception, or it completes with `some` parsed forecast or `none`. -/

/-- Outcome of one per-resort weather fetch attempt (the body of the `try`
block of `WeatherService.get_forecast`). -/
inductive FetchOutcome where
  | raises (msg : String)
  | completes (forecast : Option WeatherForecast)
deriving DecidableEq, Repr

/-- Model of `WeatherService.get_forecast`: every exception raised by the
fetch attempt is caught by the `except` handlers, which all return `None`. -/
def get_forecast (outcome : FetchOutcome) : Option WeatherForecast :=
  match outcome with
  | FetchOutcome.raises _ => none
  | FetchOutcome.completes forecast => forecast

/-- The inner `fetch_with_progress` task of
`WeatherService.get_forecasts_batch`, as observed through
`asyncio.gather(..., return_exceptions=True)`: an `Except.error` would be an
exception escaping the task.  Since `get_forecast` catches all exceptions,
the task always completes with an `(resort.id, result)` pair. -/
def fetch_with_progress (env : Coordinates → FetchOutcome) (resort : Resort) :
    Except String (String × Option WeatherForecast) :=
  Except.ok (resort.id, get_forecast (env resort.coordinates))

/-- Python dict assignment `d[k] = v`: update the existing entry in place or
append a new one. -/
def dictInsert (k : String) (v : Option WeatherForecast) :
    List (String × Option WeatherForecast) → List (String × Option WeatherForecast)
  | [] => [(k, v)]
  | (k', v') :: rest =>
    if k' = k then (k, v) :: rest else (k', v') :: dictInsert k v rest

/-- Model of `WeatherService.get_forecasts_batch`: gather the per-resort
tasks (`env` gives each coordinate's fetch outcome), then fill the `forecasts`
dict, skipping any result that is an exception. -/
def get_forecasts_batch (env : Coordinates → FetchOutcome) (resorts : List Resort) :
    List (String × Option WeatherForecast) :=
  let results := resorts.map (fetch_with_progress env)
  results.foldl
    (fun forecasts result =>
      match result with
      | Except.error _ => forecasts
      | Except.ok (resort_id, forecast) => dictInsert resort_id forecast forecasts)
    []

/-! Transport service, from `backend/services/transport_service.py`
(`TransportService`).  `get_journey` is an HTTP fetch; its two invocations in
`get_resort_journey` (destination = resort name, destination = nearest
station) are passed in as `journey_by_name` / `journey_by_station`. -/

/-- Model of `TransportService.get_resort_journey`.  `if resort.access.nearest_station:`
is Python truthiness of a string (false only for the empty string), and
`if journey and resort.access.postbus_duration_minutes:` requires a truthy
(non-`None`, non-zero) PostBus duration before adding it. -/
def get_resort_journey (journey_by_name journey_by_station : Option Journey)
    (resort : Resort) : Option Journey :=
  match journey_by_name with
  | some journey => some journey
  | none =>
    if resort.access.nearest_station ≠ "" then
      match journey_by_station with
      | some journey =>
        match resort.access.postbus_duration_minutes with
        | some d =>
          if d = 0 then some journey
          else some { journey with duration_minutes := journey.duration_minutes + d }
        | none => some journey
      | none => none
    else none

/-- Whether a fetch outcome is a raised exception. -/
def isRaises : FetchOutcome → Bool
  | FetchOutcome.raises _ => true
  | FetchOutcome.completes _ => false

/-! Concrete test fixtures used to instantiate the theorems below. -/

/-- Fixture: access metadata with a nearest station and a PostBus leg. -/
def testAccess : AccessInfo :=
  { nearest_station := "Sion", postbus_required := true,
    postbus_duration_minutes := some 25 }

/-- Fixture: a resort. -/
def testResort : Resort :=
  { id := "r1", name := "Anzere", region := "Valais", canton := some "VS",
    country := "Switzerland", coordinates := { latitude := 1, longitude := 0 },
    elevation_base := 1500, elevation_top := 2420, access := testAccess,
    website := "https://example.org", magic_pass_valid := true,
    snow_forecast_slug := none, skiable_terrain_km := some 58 }

/-- Fixture: a resort whose skiable terrain size is unknown. -/
def noSizeResort : Resort :=
  { testResort with id := "r0", skiable_terrain_km := none }

/-- Fixture: a favourable weather forecast. -/
def testForecast : WeatherForecast :=
  { date := "2026-01-17", temperature_min := -7, temperature_max := -3,
    precipitation_mm := 0, snowfall_cm := some 25, wind_speed := 10,
    wind_direction := "N", cloud_cover := 10, visibility := "Good",
    conditions := "light snow", icon := "13d" }

/-- Fixture: a direct 95-minute journey. -/
def testJourney : Journey :=
  { departure_time := "08:00", arrival_time := "09:35", duration_minutes := 95,
    changes := 0, segments := [] }

/-- Fixture: a recommendation record. -/
def testRec : Recommendation :=
  { resort := testResort, score := 8.6, weather_score := 9, snow_score := 9,
    transport_score := 8, size_score := 6, weather_forecast := some testForecast,
    snow_conditions := none, journey := some testJourney, highlights := [],
    concerns := [], reasoning := "" }

/-- Fixtures for the ranking scenario: total 9.0 plus two 6.5 ties. -/
def recA : Recommendation := { testRec with score := 9, reasoning := "A" }

def recB : Recommendation := { testRec with score := 6.5, reasoning := "B" }

def recC : Recommendation := { testRec with score := 6.5, reasoning := "C" }

/-- Fixtures for the transport boundary: 120 and 119 minutes, one change. -/
def j120 : Journey := { testJourney with duration_minutes := 120, changes := 1 }

def j119 : Journey := { testJourney with duration_minutes := 119, changes := 1 }

/-- Fixture: snow conditions reporting a base depth of exactly 0 cm. -/
def snowZeroBase : SnowConditions :=
  { resort_id := "r1", date_updated := "2026-01-16", snow_base := some 0,
    snow_summit := none, new_snow_24h := none, new_snow_7d := none,
    snow_quality := "Unknown", lifts_open := none, runs_open := none }

/-- Fixture: snow conditions with a low (but non-zero) base depth. -/
def lowBaseSnow : SnowConditions := { snowZeroBase with snow_base := some 20 }

/-- Fixture: snow conditions generating four highlights. -/
def manyHiSnow : SnowConditions :=
  { snowZeroBase with
    snow_base := some 160, new_snow_24h := some 25,
    new_snow_7d := some 60, snow_quality := "Powder" }

/-- Fixture: a forecast generating four concerns. -/
def manyConForecast : WeatherForecast :=
  { testForecast with
    temperature_min := 4, temperature_max := 6,
    snowfall_cm := none, wind_speed := 60, precipitation_mm := 5 }

/-- Fixture: snow conditions generating two concerns. -/
def manyConSnow : SnowConditions :=
  { snowZeroBase with snow_base := some 30, snow_quality := "Icy" }

/-- Fixtures for the batch-fetch theorem: five resorts with distinct ids and
coordinates. -/
def batchResort1 : Resort :=
  { testResort with id := "s1", coordinates := { latitude := 1, longitude := 0 } }

def batchResort2 : Resort :=
  { testResort with id := "s2", coordinates := { latitude := 2, longitude := 0 } }

def batchResort3 : Resort :=
  { testResort with id := "s3", coordinates := { latitude := 3, longitude := 0 } }

def batchResort4 : Resort :=
  { testResort with id := "s4", coordinates := { latitude := 4, longitude := 0 } }

def batchResort5 : Resort :=
  { testResort with id := "s5", coordinates := { latitude := 5, longitude := 0 } }

def batchResorts : List Resort :=
  [batchResort1, batchResort2, batchResort3, batchResort4, batchResort5]

/-- Fixture environment: the fetch for the resort at latitude 3 raises, every
other fetch completes. -/
def batchEnv : Coordinates → FetchOutcome := fun c =>
  if c.latitude = 3 then FetchOutcome.raises "connection error"
  else FetchOutcome.completes (some testForecast)

/-! Helper lemmas about rounding and clamping. -/

theorem rhe_ge (q : ℚ) : q - 1/2 ≤ (rhe q : ℚ) := by
  have hf1 : (⌊q⌋ : ℚ) ≤ q := Int.floor_le q
  have hf2 : q < ⌊q⌋ + 1 := Int.lt_floor_add_one q
  unfold rhe
  split_ifs <;> push_cast <;> linarith

theorem rhe_le (q : ℚ) : (rhe q : ℚ) ≤ q + 1/2 := by
  have hf1 : (⌊q⌋ : ℚ) ≤ q := Int.floor_le q
  have hf2 : q < ⌊q⌋ + 1 := Int.lt_floor_add_one q
  unfold rhe
  split_ifs <;> push_cast <;> linarith

/-- A value in `[0, 10]` rounds to a multiple of `1/10` in `[0, 10]`. -/
theorem round1_spec (q : ℚ) (h0 : 0 ≤ q) (h1 : q ≤ 10) :
    0 ≤ round1 q ∧ round1 q ≤ 10 ∧ ∃ n : ℤ, round1 q = n / 10 := by
  have hge := rhe_ge (10 * q)
  have hle := rhe_le (10 * q)
  have hn0 : (0 : ℤ) ≤ rhe (10 * q) := by
    have h : (-1 : ℚ) < (rhe (10 * q) : ℚ) := by linarith
    have h' : (-1 : ℤ) < rhe (10 * q) := by exact_mod_cast h
    omega
  have hn100 : rhe (10 * q) ≤ 100 := by
    have h : (rhe (10 * q) : ℚ) < 101 := by linarith
    have h' : rhe (10 * q) < (101 : ℤ) := by exact_mod_cast h
    omega
  refine ⟨?_, ?_, ⟨rhe (10 * q), rfl⟩⟩
  · have : (0 : ℚ) ≤ (rhe (10 * q) : ℚ) := by exact_mod_cast hn0
    unfold round1
    positivity
  · unfold round1
    rw [div_le_iff₀ (by norm_num : (0 : ℚ) < 10)]
    have : (rhe (10 * q) : ℚ) ≤ 100 := by exact_mod_cast hn100
    linarith

theorem clamp10_bounds (q : ℚ) : 0 ≤ clamp10 q ∧ clamp10 q ≤ 10 := by
  unfold clamp10
  constructor
  · exact le_max_left 0 _
  · rcases le_total 10 q with h | h <;> simp [min_def, max_def] <;> split_ifs <;> linarith

/-- Rounded clamped scores satisfy the `[0,10]`, one-decimal property. -/
theorem round1_clamp10_spec (q : ℚ) :
    0 ≤ round1 (clamp10 q) ∧ round1 (clamp10 q) ≤ 10 ∧
      ∃ n : ℤ, round1 (clamp10 q) = n / 10 :=
  round1_spec _ (clamp10_bounds q).1 (clamp10_bounds q).2

theorem sizeBand_bounds (km : ℚ) : 0 ≤ (sizeBand km).1 ∧ (sizeBand km).1 ≤ 10 := by
  unfold sizeBand
  split_ifs <;> norm_num

/-! Claim theorems. -/

/-- C1: for every input (present or absent forecast/conditions/journey/resort),
each of `score_weather`, `score_snow`, `score_transport` and `score_size`
returns a score in `[0, 10]` that is a multiple of one tenth (one decimal
place); in particular `score_size`, which has no explicit clamp, still never
returns a value outside `[0, 10]`. -/
theorem c1_subscores_bounded_one_decimal :
    ∀ (forecast : Option WeatherForecast) (conditions : Option SnowConditions)
      (journey : Option Journey) (resort : Option Resort),
      (0 ≤ (score_weather forecast).1 ∧ (score_weather forecast).1 ≤ 10 ∧
        ∃ n : ℤ, (score_weather forecast).1 = n / 10) ∧
      (0 ≤ (score_snow conditions).1 ∧ (score_snow conditions).1 ≤ 10 ∧
        ∃ n : ℤ, (score_snow conditions).1 = n / 10) ∧
      (0 ≤ (score_transport journey).1 ∧ (score_transport journey).1 ≤ 10 ∧
        ∃ n : ℤ, (score_transport journey).1 = n / 10) ∧
      (0 ≤ (score_size resort).1 ∧ (score_size resort).1 ≤ 10 ∧
        ∃ n : ℤ, (score_size resort).1 = n / 10) := by
  intro forecast conditions journey resort
  refine ⟨?_, ?_, ?_, ?_⟩
  · cases forecast with
    | none => exact ⟨by norm_num [score_weather], by norm_num [score_weather],
        ⟨50, by norm_num [score_weather]⟩⟩
    | some f => exact round1_clamp10_spec _
  · cases conditions with
    | none => exact ⟨by norm_num [score_snow, SNOW_UNAVAILABLE_PENALTY],
        by norm_num [score_snow, SNOW_UNAVAILABLE_PENALTY],
        ⟨25, by norm_num [score_snow, SNOW_UNAVAILABLE_PENALTY]⟩⟩
    | some c => exact round1_clamp10_spec _
  · cases journey with
    | none => exact ⟨by norm_num [score_transport], by norm_num [score_transport],
        ⟨30, by norm_num [score_transport]⟩⟩
    | some j => exact round1_clamp10_spec _
  · cases resort with
    | none => exact ⟨by norm_num [score_size], by norm_num [score_size],
        ⟨50, by norm_num [score_size]⟩⟩
    | some r =>
      cases hkm : r.skiable_terrain_km with
      | none => exact ⟨by norm_num [score_size, hkm], by norm_num [score_size, hkm],
          ⟨50, by norm_num [score_size, hkm]⟩⟩
      | some km =>
        have hb := sizeBand_bounds km
        have h := round1_spec (sizeBand km).1 hb.1 hb.2
        simpa [score_size, hkm] using h

/-- C2: for all four sub-scores in `[0, 10]`, `calculate_total_score` equals
`round(0.20*weather + 0.45*snow + 0.10*transport + 0.25*size, 1)`, and
`score_resort`'s total is exactly this weighted combination of the four
sub-scores it computed. -/
theorem c2_weighted_total (w s t z : ℚ)
    (hw : 0 ≤ w ∧ w ≤ 10) (hs : 0 ≤ s ∧ s ≤ 10)
    (ht : 0 ≤ t ∧ t ≤ 10) (hz : 0 ≤ z ∧ z ≤ 10) :
    calculate_total_score w s t z = round1 (0.20 * w + 0.45 * s + 0.10 * t + 0.25 * z) ∧
    ∀ (weather : Option WeatherForecast) (snow : Option SnowConditions)
      (transport : Option Journey) (resort : Option Resort),
      (score_resort weather snow transport resort).total_score =
        calculate_total_score
          (score_resort weather snow transport resort).weather_score
          (score_resort weather snow transport resort).snow_score
          (score_resort weather snow transport resort).transport_score
          (score_resort weather snow transport resort).size_score := by
  constructor
  · unfold calculate_total_score WEATHER_WEIGHT SNOW_WEIGHT TRANSPORT_WEIGHT SIZE_WEIGHT
    congr 1
    ring
  · intro weather snow transport resort
    rfl

/-- Witness for C2 at the concrete sub-scores (5, 10, 10, 10). -/
theorem c2_weighted_total_witness :
    calculate_total_score 5 10 10 10 =
      round1 (0.20 * 5 + 0.45 * 10 + 0.10 * 10 + 0.25 * 10) :=
  (c2_weighted_total 5 10 10 10 (by norm_num) (by norm_num) (by norm_num)
    (by norm_num)).1

/-- C3: missing input data never raises in the scoring engine; the absent-data
results are exactly 5.0 (weather), 2.5 (snow), 3.0 (transport), 5.0 (size
unknown), each with its standard concern message. -/
theorem c3_absent_defaults :
    score_weather none = (5, [], ["Weather data unavailable"]) ∧
    score_snow none = (2.5, [], ["Snow data unavailable - conditions unknown"]) ∧
    score_transport none = (3, [], ["Transport data unavailable"]) ∧
    score_size none = (5, [], ["Resort size unknown"]) ∧
    ∀ resort : Resort, resort.skiable_terrain_km = none →
      score_size (some resort) = (5, [], ["Resort size unknown"]) := by
  refine ⟨rfl, rfl, rfl, rfl, ?_⟩
  intro resort h
  simp [score_size, h]

/-- Witness for C3's terrain-unknown clause at a concrete resort. -/
theorem c3_absent_defaults_witness :
    score_size (some noSizeResort) = (5, [], ["Resort size unknown"]) :=
  c3_absent_defaults.2.2.2.2 noSizeResort rfl

/-- C7: `score_transport`'s duration bands use strict upper comparisons:
exactly 120 minutes gets base score 8.5 (the below-2.5h band), while 119
minutes gets base score 10.0 (the below-2h band); the same values show through
the full scorer for a one-change journey (change adjustment 0, no clamping
effect). -/
theorem c7_transport_banding :
    (transportDurationBase 120).1 = 8.5 ∧
    (transportDurationBase 119).1 = 10 ∧
    (score_transport (some j120)).1 = 8.5 ∧
    (score_transport (some j119)).1 = 10 := by
  refine ⟨?_, ?_, ?_, ?_⟩
  · norm_num [transportDurationBase]
  · norm_num [transportDurationBase]
  · norm_num [score_transport, transportDurationBase, transportChangesAdj, j120,
      testJourney, clamp10, round1, rhe]
  · norm_num [score_transport, transportDurationBase, transportChangesAdj, j119,
      testJourney, clamp10, round1, rhe]

/-- C8 counterexample: a present `SnowConditions` with a base depth of exactly
0 cm (all other fields neutral) scores 5.0 with no concern at all — the guard
`if conditions.snow_base:` is false for 0, so the below-40 penalty and the
low-snow-base concern are skipped, contradicting the claim that a 0 base depth
subtracts 2.0 and emits the concern. -/
theorem c8_zero_base_counterexample : score_snow (some snowZeroBase) = (5, [], []) := by
  have hqa : snowQualityAdj "Unknown" = (0, [], []) := rfl
  norm_num [score_snow, snowZeroBase, snowBaseAdj, snowNew24Adj, snowNew7Adj,
    hqa, clamp10, max_def, min_def, round1, rhe]

/-- C8 (amended): for a present `SnowConditions` whose base depth is strictly
between 0 and 40 cm, `score_snow`'s base-depth block contributes exactly
`-2.0` with the low-snow-base concern, and that concern appears in the
scorer's concern list; a recorded base of exactly 0 is skipped by the Python
truthiness guard and gets neither the penalty nor the concern. -/
theorem c8_low_base_penalty (conditions : SnowConditions) (b : ℤ)
    (hb : conditions.snow_base = some b) (h0 : 0 < b) (h40 : b < 40) :
    snowBaseAdj conditions.snow_base =
      (-2, [], ["Low snow base (" ++ toString b ++ "cm)"]) ∧
    ("Low snow base (" ++ toString b ++ "cm)") ∈ (score_snow (some conditions)).2.2 := by
  have hadj : snowBaseAdj conditions.snow_base =
      (-2, [], ["Low snow base (" ++ toString b ++ "cm)"]) := by
    rw [hb]
    simp only [snowBaseAdj]
    rw [if_neg (by omega : ¬ b = 0), if_neg (by omega : ¬ 150 ≤ b),
      if_neg (by omega : ¬ 100 ≤ b), if_neg (by omega : ¬ 60 ≤ b), if_pos h40]
  refine ⟨hadj, ?_⟩
  simp [score_snow, hadj, List.mem_append]

/-- Witness for C8's amended statement at base depth 20 cm. -/
theorem c8_low_base_penalty_witness :
    snowBaseAdj lowBaseSnow.snow_base =
      (-2, [], ["Low snow base (" ++ toString (20 : ℤ) ++ "cm)"]) ∧
    ("Low snow base (" ++ toString (20 : ℤ) ++ "cm)") ∈
      (score_snow (some lowBaseSnow)).2.2 :=
  c8_low_base_penalty lowBaseSnow 20 rfl (by norm_num) (by norm_num)

/-- C10: in `get_resort_journey`, when the lookup by resort name yields no
journey but the lookup by nearest station yields one and the resort has a
configured PostBus duration, the returned journey's duration is the station
journey's duration plus the PostBus duration; when the lookup by resort name
succeeds, that journey is returned unchanged. -/
theorem c10_postbus_duration (journey_by_name journey_by_station : Option Journey)
    (resort : Resort) (j : Journey) (d : ℤ) :
    (journey_by_name = none → resort.access.nearest_station ≠ "" →
      journey_by_station = some j →
      resort.access.postbus_duration_minutes = some d →
      ∃ jr, get_resort_journey journey_by_name journey_by_station resort = some jr ∧
        jr.duration_minutes = j.duration_minutes + d) ∧
    (journey_by_name = some j →
      get_resort_journey journey_by_name journey_by_station resort = some j) := by
  constructor
  · intro h1 h2 h3 h4
    subst h1
    subst h3
    by_cases hd : d = 0
    · subst hd
      refine ⟨j, ?_, by omega⟩
      simp [get_resort_journey, h2, h4]
    · refine ⟨{ j with duration_minutes := j.duration_minutes + d }, ?_, rfl⟩
      simp [get_resort_journey, h2, h4, hd]
  · intro h1
    subst h1
    rfl

/-- Witness for C10: station journey of 95 minutes plus a 25-minute PostBus
leg, and a direct name-lookup journey returned unchanged. -/
theorem c10_postbus_duration_witness :
    (∃ jr, get_resort_journey none (some testJourney) testResort = some jr ∧
      jr.duration_minutes = testJourney.duration_minutes + 25) ∧
    get_resort_journey (some testJourney) none testResort = some testJourney :=
  ⟨(c10_postbus_duration none (some testJourney) testResort testJourney 25).1
      rfl (by decide) rfl rfl,
    (c10_postbus_duration (some testJourney) none testResort testJourney 0).2 rfl⟩

/-! Properties of the stable descending sort. -/

theorem perm_insertByScoreDesc (r : Recommendation) (l : List Recommendation) :
    List.Perm (insertByScoreDesc r l) (r :: l) := by
  induction l with
  | nil => exact List.Perm.refl _
  | cons x xs ih =>
    simp only [insertByScoreDesc]
    split_ifs with h
    · exact List.Perm.refl _
    · exact (ih.cons x).trans (List.Perm.swap r x xs)

theorem sortByScoreDesc_perm (l : List Recommendation) :
    List.Perm (sortByScoreDesc l) l := by
  induction l with
  | nil => exact List.Perm.refl _
  | cons x xs ih =>
    exact (perm_insertByScoreDesc x (sortByScoreDesc xs)).trans (ih.cons x)

theorem mem_insertByScoreDesc {y r : Recommendation} {l : List Recommendation} :
    y ∈ insertByScoreDesc r l ↔ y = r ∨ y ∈ l := by
  rw [(perm_insertByScoreDesc r l).mem_iff, List.mem_cons]

theorem pairwise_insertByScoreDesc (r : Recommendation) (l : List Recommendation)
    (h : l.Pairwise (fun a b => b.score ≤ a.score)) :
    (insertByScoreDesc r l).Pairwise (fun a b => b.score ≤ a.score) := by
  induction l with
  | nil => simp [insertByScoreDesc]
  | cons x xs ih =>
    rw [List.pairwise_cons] at h
    obtain ⟨hx, hxs⟩ := h
    simp only [insertByScoreDesc]
    split_ifs with hle
    · refine List.Pairwise.cons ?_ (List.Pairwise.cons hx hxs)
      intro y hy
      rcases List.mem_cons.mp hy with rfl | hy'
      · exact hle
      · exact le_trans (hx y hy') hle
    · refine List.Pairwise.cons ?_ (ih hxs)
      intro y hy
      rcases mem_insertByScoreDesc.mp hy with rfl | hy'
      · exact le_of_lt (lt_of_not_le hle)
      · exact hx y hy'

theorem sortByScoreDesc_sorted (l : List Recommendation) :
    (sortByScoreDesc l).Pairwise (fun a b => b.score ≤ a.score) := by
  induction l with
  | nil => simp [sortByScoreDesc]
  | cons x xs ih => exact pairwise_insertByScoreDesc x _ ih

theorem filter_insertByScoreDesc (r : Recommendation) (l : List Recommendation) (c : ℚ) :
    (insertByScoreDesc r l).filter (fun x => decide (x.score = c)) =
      if r.score = c then r :: l.filter (fun x => decide (x.score = c))
      else l.filter (fun x => decide (x.score = c)) := by
  induction l with
  | nil =>
    by_cases hr : r.score = c <;> simp [insertByScoreDesc, List.filter_cons, hr]
  | cons x xs ih =>
    simp only [insertByScoreDesc]
    split_ifs with hle hrc hrc
    · simp [List.filter_cons, hrc]
    · simp [List.filter_cons, hrc]
    · have hlt : r.score < x.score := lt_of_not_le hle
      have hx : ¬ x.score = c := by
        intro hx
        rw [hrc, ← hx] at hlt
        exact lt_irrefl _ hlt
      simp [List.filter_cons, hx, ih, hrc]
    · by_cases hx : x.score = c <;> simp [List.filter_cons, hx, ih, hrc]

theorem sortByScoreDesc_stable (l : List Recommendation) (c : ℚ) :
    (sortByScoreDesc l).filter (fun x => decide (x.score = c)) =
      l.filter (fun x => decide (x.score = c)) := by
  induction l with
  | nil => rfl
  | cons x xs ih =>
    have h := filter_insertByScoreDesc x (sortByScoreDesc xs) c
    by_cases hx : x.score = c <;>
      simp only [sortByScoreDesc] <;>
      simp [h, hx, ih, List.filter_cons]

/-- C5 counterexample: at a concrete failing LLM outcome and a nonempty
recommendation list, the summarizer `generate_recommendation_summary` itself
returns the deterministic fallback summary (a successful value, not an
error) — so it is the summarizer component, not the orchestrator, that
catches the failure, contradicting the claim. -/
theorem c5_orchestrator_catch_counterexample :
    generate_recommendation_summary [testRec] (Except.error "api failure") =
      Except.ok (generate_fallback_summary [testRec]) ∧
    (generate_recommendation_summary [testRec] (Except.error "api failure")).isOk = true :=
  ⟨rfl, rfl⟩

/-- C5 (amended): when the LLM call fails, the summarizer component itself
(`generate_recommendation_summary`) catches the failure and substitutes the
deterministic fallback summary built by `_generate_fallback_summary` from the
top recommendation's name, score, weather condition text, and travel time;
the orchestrator `generate_recommendations` performs no catching of its own
and simply returns the summarizer's successful result, so the failure is
never surfaced to the caller as an error. -/
theorem c5_summarizer_fallback (recommendations : List Recommendation) (msg : String)
    (h : recommendations ≠ []) :
    generate_recommendation_summary recommendations (Except.error msg) =
      Except.ok (generate_fallback_summary recommendations) ∧
    ∀ (resorts : List Resort) (weather_data : String → Option WeatherForecast)
      (snow_data : String → Option SnowConditions)
      (transport_data : String → Option Journey) (n : ℕ) (tw : String),
      ∃ resp,
        generate_recommendations resorts weather_data snow_data transport_data n
          (Except.error msg) tw = Except.ok resp ∧
        (resp.recommendations ≠ [] →
          resp.ai_summary = generate_fallback_summary resp.recommendations) := by
  constructor
  · obtain ⟨a, as, rfl⟩ := List.exists_cons_of_ne_nil h
    rfl
  · intro resorts weather_data snow_data transport_data n tw
    cases htop : (sortByScoreDesc (resorts.map fun resort =>
        buildRecommendation resort (weather_data resort.id) (snow_data resort.id)
          (transport_data resort.id))).take n with
    | nil =>
      refine ⟨{ recommendations := [],
                ai_summary := "Unfortunately, I couldn\x27t generate recommendations at this time. "
                  ++ "Please try again later.",
                target_weekend := tw }, ?_, ?_⟩
      · simp only [generate_recommendations, htop]
        rfl
      · intro hne
        exact absurd rfl hne
    | cons a as =>
      refine ⟨{ recommendations := a :: as,
                ai_summary := generate_fallback_summary (a :: as),
                target_weekend := tw }, ?_, fun _ => rfl⟩
      simp only [generate_recommendations, htop]
      rfl

/-- Witness for C5's amended statement at a concrete nonempty list. -/
theorem c5_summarizer_fallback_witness :
    generate_recommendation_summary [recA, recB] (Except.error "timeout") =
      Except.ok (generate_fallback_summary [recA, recB]) :=
  (c5_summarizer_fallback [recA, recB] "timeout" (by simp)).1

/-- C9: the `Recommendation` built inside `generate_recommendations` carries
exactly the first 5 entries of the concatenated highlight (resp. concern)
list whenever that list exceeds 5 entries, whereas `get_resort_details`
returns the same lists untruncated. -/
theorem c9_truncation (weather : Option WeatherForecast) (snow : Option SnowConditions)
    (transport : Option Journey) (resort : Resort) :
    (5 < (score_resort weather snow transport (some resort)).highlights.length →
      (buildRecommendation resort weather snow transport).highlights =
        (score_resort weather snow transport (some resort)).highlights.take 5 ∧
      (get_resort_details (some resort) weather snow transport).map
          Recommendation.highlights =
        some (score_resort weather snow transport (some resort)).highlights) ∧
    (5 < (score_resort weather snow transport (some resort)).concerns.length →
      (buildRecommendation resort weather snow transport).concerns =
        (score_resort weather snow transport (some resort)).concerns.take 5 ∧
      (get_resort_details (some resort) weather snow transport).map
          Recommendation.concerns =
        some (score_resort weather snow transport (some resort)).concerns) :=
  ⟨fun _ => ⟨rfl, rfl⟩, fun _ => ⟨rfl, rfl⟩⟩

/-- Witness for C9: a resort with 7 highlights (truncated to 5 in the batch
path, full in the details path) and one with 8 concerns likewise. -/
theorem c9_truncation_witness :
    (buildRecommendation noSizeResort (some testForecast) (some manyHiSnow) none).highlights =
      (score_resort (some testForecast) (some manyHiSnow) none
        (some noSizeResort)).highlights.take 5 ∧
    (get_resort_details (some noSizeResort) (some testForecast) (some manyHiSnow) none).map
        Recommendation.highlights =
      some (score_resort (some testForecast) (some manyHiSnow) none
        (some noSizeResort)).highlights ∧
    (buildRecommendation noSizeResort (some manyConForecast) (some manyConSnow) none).concerns =
      (score_resort (some manyConForecast) (some manyConSnow) none
        (some noSizeResort)).concerns.take 5 ∧
    (get_resort_details (some noSizeResort) (some manyConForecast) (some manyConSnow) none).map
        Recommendation.concerns =
      some (score_resort (some manyConForecast) (some manyConSnow) none
        (some noSizeResort)).concerns := by
  have h1 : 5 < (score_resort (some testForecast) (some manyHiSnow) none
      (some noSizeResort)).highlights.length := by
    norm_num [score_resort, score_weather, score_snow, score_transport, score_size,
      weatherTempAdj, weatherSnowfallAdj, weatherCloudAdj, weatherWindAdj,
      weatherRainAdj, snowBaseAdj, snowNew24Adj, snowNew7Adj, snowQualityAdj,
      snowfallTruthy, testForecast, manyHiSnow, noSizeResort, testResort,
      snowZeroBase, str_lower]
  have h2 : 5 < (score_resort (some manyConForecast) (some manyConSnow) none
      (some noSizeResort)).concerns.length := by
    norm_num [score_resort, score_weather, score_snow, score_transport, score_size,
      weatherTempAdj, weatherSnowfallAdj, weatherCloudAdj, weatherWindAdj,
      weatherRainAdj, snowBaseAdj, snowNew24Adj, snowNew7Adj, snowQualityAdj,
      snowfallTruthy, manyConForecast, manyConSnow, noSizeResort, testResort,
      snowZeroBase, testForecast, str_lower]
  obtain ⟨a1, a2⟩ :=
    (c9_truncation (some testForecast) (some manyHiSnow) none noSizeResort).1 h1
  obtain ⟨b1, b2⟩ :=
    (c9_truncation (some manyConForecast) (some manyConSnow) none noSizeResort).2 h2
  exact ⟨a1, a2, b1, b2⟩

/-! Lemmas about the weather batch dictionary. -/

theorem dictInsert_of_not_mem (k : String) (v : Option WeatherForecast)
    (l : List (String × Option WeatherForecast))
    (h : ∀ p ∈ l, p.1 ≠ k) : dictInsert k v l = l ++ [(k, v)] := by
  induction l with
  | nil => rfl
  | cons p rest ih =>
    obtain ⟨k', v'⟩ := p
    have hk : k' ≠ k := h (k', v') (List.mem_cons_self _ _)
    simp only [dictInsert, if_neg hk, List.cons_append]
    rw [ih]
    intro q hq
    exact h q (List.mem_cons_of_mem _ hq)

theorem foldl_dictInsert_append (env : Coordinates → FetchOutcome)
    (rs : List Resort) (acc : List (String × Option WeatherForecast))
    (hnd : (rs.map Resort.id).Nodup)
    (hdisj : ∀ r ∈ rs, ∀ p ∈ acc, p.1 ≠ r.id) :
    ((rs.map (fetch_with_progress env)).foldl
      (fun forecasts result =>
        match result with
        | Except.error _ => forecasts
        | Except.ok (resort_id, forecast) => dictInsert resort_id forecast forecasts)
      acc) =
      acc ++ rs.map (fun r => (r.id, get_forecast (env r.coordinates))) := by
  induction rs generalizing acc with
  | nil => simp
  | cons r rest ih =>
    simp only [List.map_cons, List.nodup_cons] at hnd
    obtain ⟨hrid, hndrest⟩ := hnd
    simp only [List.map_cons, List.foldl_cons, fetch_with_progress]
    rw [dictInsert_of_not_mem r.id (get_forecast (env r.coordinates)) acc
      (fun p hp => hdisj r (List.mem_cons_self _ _) p hp)]
    have hdisj' : ∀ r' ∈ rest,
        ∀ p ∈ acc ++ [(r.id, get_forecast (env r.coordinates))], p.1 ≠ r'.id := by
      intro r' hr' p hp
      rcases List.mem_append.mp hp with hp' | hp'
      · exact hdisj r' (List.mem_cons_of_mem _ hr') p hp'
      · rcases List.mem_singleton.mp hp' with rfl
        intro hcontra
        have heq : r.id = r'.id := hcontra
        refine hrid ?_
        rw [heq]
        exact List.mem_map_of_mem Resort.id hr'
    rw [ih _ hndrest hdisj']
    simp

theorem get_forecasts_batch_eq_map (env : Coordinates → FetchOutcome)
    (resorts : List Resort) (hnd : (resorts.map Resort.id).Nodup) :
    get_forecasts_batch env resorts =
      resorts.map (fun r => (r.id, get_forecast (env r.coordinates))) := by
  unfold get_forecasts_batch
  rw [foldl_dictInsert_append env resorts [] hnd (by intro r hr p hp; cases hp)]
  simp

/-- C4: if exactly one resort's per-resort weather fetch raises an exception,
`get_forecasts_batch` over a list of resorts with distinct ids still returns a
mapping with one entry per resort — the failed one mapped to absent (the
exception is caught inside `get_forecast`) — and does not itself raise (it is
a total function into the dictionary of results). -/
theorem c4_batch_isolation (env : Coordinates → FetchOutcome) (resorts : List Resort)
    (i : ℕ) (msg : String) (hi : i < resorts.length)
    (hnd : (resorts.map Resort.id).Nodup)
    (hfail : env (resorts[i].coordinates) = FetchOutcome.raises msg)
    (hothers : ∀ j, (hj : j < resorts.length) → j ≠ i →
      isRaises (env (resorts[j].coordinates)) = false) :
    (get_forecasts_batch env resorts).length = resorts.length ∧
    (get_forecasts_batch env resorts)[i]? = some (resorts[i].id, none) ∧
    ∀ j, (hj : j < resorts.length) →
      (get_forecasts_batch env resorts)[j]? =
        some ((resorts[j]).id, get_forecast (env (resorts[j]).coordinates)) := by
  rw [get_forecasts_batch_eq_map env resorts hnd]
  refine ⟨by simp, ?_, ?_⟩
  · rw [List.getElem?_map, List.getElem?_eq_getElem hi]
    simp [hfail, get_forecast]
  · intro j hj
    rw [List.getElem?_map, List.getElem?_eq_getElem hj]
    rfl

/-- Witness for C4 with five concrete resorts, the third of which raises. -/
theorem c4_batch_isolation_witness :
    (get_forecasts_batch batchEnv batchResorts).length = 5 ∧
    (get_forecasts_batch batchEnv batchResorts)[2]? = some ("s3", none) := by
  have h := c4_batch_isolation batchEnv batchResorts 2 "connection error"
    (by norm_num [batchResorts])
    (by simp [batchResorts, batchResort1, batchResort2, batchResort3, batchResort4,
      batchResort5, testResort])
    (by norm_num [batchResorts, batchResort3, testResort, batchEnv])
    (by
      intro j hj hne
      simp only [batchResorts, List.length_cons, List.length_nil] at hj
      interval_cases j <;> simp_all <;>
        norm_num [batchResorts, batchResort1, batchResort2, batchResort4,
          batchResort5, testResort, batchEnv, isRaises])
  refine ⟨h.1.trans (by norm_num [batchResorts]), ?_⟩
  have h2 := h.2.1
  rw [h2]
  norm_num [batchResorts, batchResort3, testResort]

/-- C6: `generate_recommendations` sorts the built recommendations by total
score descending with score as the only key (the sort is a permutation,
descending in `score`, and stable: the sublist at any fixed score value keeps
the input order), then returns exactly the first `count`; in the ranking
scenario with totals 9.0, 6.5, 6.5 and count 2 the result is the 9.0 resort
followed by the first-listed tied resort. -/
theorem c6_ranking :
    (∀ (resorts : List Resort) (weather_data : String → Option WeatherForecast)
       (snow_data : String → Option SnowConditions)
       (transport_data : String → Option Journey) (n : ℕ)
       (llm_result : Except String String) (tw : String),
      generate_recommendations resorts weather_data snow_data transport_data n
          llm_result tw =
        (generate_recommendation_summary
          ((sortByScoreDesc (resorts.map fun resort =>
            buildRecommendation resort (weather_data resort.id) (snow_data resort.id)
              (transport_data resort.id))).take n) llm_result).map
          (fun ai_summary =>
            { recommendations := (sortByScoreDesc (resorts.map fun resort =>
                buildRecommendation resort (weather_data resort.id)
                  (snow_data resort.id) (transport_data resort.id))).take n
              ai_summary := ai_summary
              target_weekend := tw })) ∧
    (∀ l : List Recommendation,
      (sortByScoreDesc l).Pairwise (fun a b => b.score ≤ a.score)) ∧
    (∀ l : List Recommendation, List.Perm (sortByScoreDesc l) l) ∧
    (∀ (l : List Recommendation) (c : ℚ),
      (sortByScoreDesc l).filter (fun r => decide (r.score = c)) =
        l.filter (fun r => decide (r.score = c))) ∧
    (sortByScoreDesc [recB, recA, recC]).take 2 = [recA, recB] := by
  refine ⟨?_, sortByScoreDesc_sorted, sortByScoreDesc_perm, sortByScoreDesc_stable, ?_⟩
  · intro resorts weather_data snow_data transport_data n llm_result tw
    simp only [generate_recommendations]
    cases h : generate_recommendation_summary ((sortByScoreDesc (resorts.map fun resort =>
      buildRecommendation resort (weather_data resort.id) (snow_data resort.id)
        (transport_data resort.id))).take n) llm_result with
    | error e => simp [h, Except.map]
    | ok ai => simp [h, Except.map]
  · norm_num [sortByScoreDesc, insertByScoreDesc, recA, recB, recC, testRec]
